import Mathlib

/-!
Verification development for ngx-mf-remote-loader.

Shallow embedding of the package sources:
  * src/remote-loader.ts          (RemoteLoader contract, remoteLoader route factory)
  * src/remote-loader-browser.ts  (RemoteLoaderBrowser.load)
  * src/remote-loader-server.ts   (RemoteLoaderServer.registerRemoteModule / load)

Promises are modelled by their settled outcome: a factory or delegated call is
an Except value (ok = the promise fulfilled with the value, error = the promise
rejected with the reason).  A call to load either returns a promise (which
settles) or raises a synchronous exception; LoadResult distinguishes the three.
JavaScript values are modelled by the inductive JSValue, with property access
and truthiness following JavaScript semantics (property access on null or
undefined raises a TypeError; on other primitives the modelled properties are
absent, hence undefined).
-/

namespace NgxMfRemoteLoader

/-- Model of a dynamically shaped JavaScript value. -/
inductive JSValue where
  | undefined : JSValue
  | null : JSValue
  | bool : Bool → JSValue
  | num : Int → JSValue
  | str : String → JSValue
  | obj : List (String × JSValue) → JSValue
deriving Repr

/-- JavaScript truthiness of a value. -/
def JSValue.truthy : JSValue → Bool
  | .undefined => false
  | .null => false
  | .bool b => b
  | .num n => n != 0
  | .str s => s ≠ ""
  | .obj _ => true

/-- Property lookup on an object value: the first binding of the name, or
undefined when the name is absent.  On non-object values every modelled
property is absent. -/
def getProp : JSValue → String → JSValue
  | .obj props, nm => (((props.find? (fun p => p.1 == nm)).map (fun p => p.2)).getD .undefined)
  | _, _ => .undefined

/-- Whether an object value carries a binding for the given property name. -/
def hasProp : JSValue → String → Bool
  | .obj props, nm => (props.find? (fun p => p.1 == nm)).isSome
  | _, _ => false

/-- JavaScript property access, as used in the then-callbacks of both loaders.
Access on null or undefined raises a TypeError (modelled as an error value);
access on every other value yields the property per getProp. -/
def propAccess : JSValue → String → Except JSValue JSValue
  | .null, nm => .error (.str ("TypeError: Cannot read properties of null (reading " ++ nm ++ ")"))
  | .undefined, nm => .error (.str ("TypeError: Cannot read properties of undefined (reading " ++ nm ++ ")"))
  | v, nm => .ok (getProp v nm)

/-- The settled outcome of a promise of a module value: ok means the promise
fulfilled with the value, error means it rejected with the reason. -/
abbrev PromiseOutcome := Except JSValue JSValue

/-- What a call to load delivers to its caller. -/
inductive LoadResult where
  | resolved : JSValue → LoadResult
  | rejected : JSValue → LoadResult
  | thrown : String → LoadResult
deriving Repr

/-- Whether a load outcome is a rejected promise (as opposed to a fulfilled
promise or a synchronous exception). -/
def LoadResult.isRejectedPromise : LoadResult → Bool
  | .rejected _ => true
  | _ => false

/-- Run a then-callback over a settled promise: a rejection passes through the
callback unchanged, and an exception thrown inside the callback rejects the
resulting promise. -/
def thenRun (p : PromiseOutcome) (f : JSValue → Except JSValue JSValue) : LoadResult :=
  match p with
  | .error e => .rejected e
  | .ok m =>
    match f m with
    | .ok v => .resolved v
    | .error e => .rejected e

/-! JavaScript plain-record semantics for the server registration table:
assignment overwrites in place (keeping insertion order), lookup returns the
stored value for the key when present. -/

/-- Record assignment map[k] = v: overwrite the binding in place, or append
a new binding at the end. -/
def recordSet {α : Type} : List (String × α) → String → α → List (String × α)
  | [], k, v => [(k, v)]
  | (k', v') :: rest, k, v =>
    if k' = k then (k, v) :: rest else (k', v') :: recordSet rest k v

/-- Record lookup map[k]: the stored value, or none when the key is absent. -/
def recordGet {α : Type} : List (String × α) → String → Option α
  | [], _ => none
  | (k', v') :: rest, k => if k' = k then some v' else recordGet rest k

/-- State of a RemoteLoaderServer instance: the remoteModuleMap, a record from
the concatenated key remoteName ++ remoteModule to the registered factory
(modelled by its settled promise outcome). -/
abbrev RemoteLoaderServer := List (String × PromiseOutcome)

/-- registerRemoteModule from src/remote-loader-server.ts:
this.remoteModuleMap[remoteName + remoteModule] = importFn. -/
def registerRemoteModule (self : RemoteLoaderServer) (remoteName remoteModule : String)
    (importFn : PromiseOutcome) : RemoteLoaderServer :=
  recordSet self (remoteName ++ remoteModule) importFn

/-- The message of the Error thrown by the server load for an unregistered key. -/
def notFoundMessage (remoteName remoteModule : String) : String :=
  "Remote module " ++ remoteName ++ "/" ++ remoteModule ++
    " not found. Make sure to register it using registerRemoteModule."

/-- The warning emitted on the development fallback path. -/
def exampleWarning : String :=
  "Using example implementation for exampleAppModule"

/-- What the server load delivers, together with the console warnings it emits. -/
structure ServerLoadOutput where
  result : LoadResult
  warnings : List String
deriving Repr

/-- The then-callback of the server load:
m => remoteModule === 'Module' && m.RemoteEntryModule ? m.RemoteEntryModule : m. -/
def serverThen (remoteModule : String) (m : JSValue) : Except JSValue JSValue :=
  if remoteModule = "Module" then
    match propAccess m "RemoteEntryModule" with
    | .error e => .error e
    | .ok p => .ok (if p.truthy then p else m)
  else .ok m

/-- RemoteLoaderServer.load from src/remote-loader-server.ts.  nodeEnv models
process.env.NODE_ENV.  The returned pair is (what the caller receives together
with emitted warnings, the post-call remoteModuleMap): the source never writes
to the map inside load, so the state is threaded through unchanged. -/
def RemoteLoaderServer.load (self : RemoteLoaderServer) (nodeEnv : String)
    (remoteName remoteModule : String) : ServerLoadOutput × RemoteLoaderServer :=
  let key := remoteName ++ remoteModule
  match recordGet self key with
  | some importFn => (⟨thenRun importFn (serverThen remoteModule), []⟩, self)
  | none =>
    if nodeEnv = "development" ∧ key = "exampleAppModule" then
      (⟨.resolved (.obj []), [exampleWarning]⟩, self)
    else
      (⟨.thrown (notFoundMessage remoteName remoteModule), []⟩, self)

/-- The then-callback of the browser load:
m => remoteModule === 'Module' ? m.RemoteEntryModule : m. -/
def browserThen (remoteModule : String) (m : JSValue) : Except JSValue JSValue :=
  if remoteModule = "Module" then propAccess m "RemoteEntryModule" else .ok m

/-- RemoteLoaderBrowser.load from src/remote-loader-browser.ts.  The external
federation runtime loadRemoteModule is a parameter, applied to the remote name
and the item prefixed with "./" exactly as in the source. -/
def RemoteLoaderBrowser.load (loadRemoteModule : String → String → PromiseOutcome)
    (remoteName remoteModule : String) : LoadResult :=
  thenRun (loadRemoteModule remoteName ("./" ++ remoteModule)) (browserThen remoteModule)

/-! The route-factory helper remoteLoader from src/remote-loader.ts.  The
ambient dependency injection is modelled by passing the injected RemoteLoader
implementation explicitly as a load function.  Invoking the loadChildren thunk
of the proxy route evaluates the body loader.load(name, 'Module'): we record
the list of load calls the invocation performs alongside the promise it hands
back to the router. -/

/-- A call to a RemoteLoader load method: records the call and returns its result. -/
def callLoad (loader : String → String → LoadResult) (remoteName remoteModule : String) :
    LoadResult × List (String × String) :=
  (loader remoteName remoteModule, [(remoteName, remoteModule)])

/-- One invocation of the loadChildren thunk produced by the ROUTES provider
factory inside remoteLoader(name): the body is the single call
loader.load(name, 'Module'), whose promise is returned to the router. -/
def proxyLoadChildren (loader : String → String → LoadResult) (name : String) :
    LoadResult × List (String × String) :=
  callLoad loader name "Module"

/-- The route record built by the ROUTES provider factory of remoteLoader:
path '' with the loadChildren thunk described by proxyLoadChildren. -/
def proxyRoutePath : String := ""

/-! Record semantics lemmas shared by the claim theorems. -/

theorem recordGet_recordSet_self {α : Type} (m : List (String × α)) (k : String) (v : α) :
    recordGet (recordSet m k v) k = some v := by
  induction m with
  | nil => simp [recordSet, recordGet]
  | cons p rest ih =>
    obtain ⟨k', v'⟩ := p
    by_cases h : k' = k
    · simp [recordSet, recordGet, h]
    · simp [recordSet, recordGet, h, ih]

theorem recordGet_recordSet_ne {α : Type} (m : List (String × α)) (k k₂ : String) (v : α)
    (h : k ≠ k₂) : recordGet (recordSet m k v) k₂ = recordGet m k₂ := by
  induction m with
  | nil => simp [recordSet, recordGet, h]
  | cons p rest ih =>
    obtain ⟨k', v'⟩ := p
    by_cases hk : k' = k
    · subst hk
      simp [recordSet, recordGet, h]
    · simp [recordSet, recordGet, hk, ih]

theorem recordSet_recordSet_self {α : Type} (m : List (String × α)) (k : String) (v₁ v₂ : α) :
    recordSet (recordSet m k v₁) k v₂ = recordSet m k v₂ := by
  induction m with
  | nil => simp [recordSet]
  | cons p rest ih =>
    obtain ⟨k', v'⟩ := p
    by_cases h : k' = k
    · simp [recordSet, h]
    · simp [recordSet, h, ih]

/-! Claim theorems. -/

/-- C1 counterexample: register ("app1", "Module") with a factory resolving to
an object whose RemoteEntryModule property is present but null.  The claim as
stated says load returns the value of that property; the code instead resolves
to the whole module object, because the unwrap tests truthiness, and the
value of the property (null) differs from the whole object. -/
theorem c1_counterexample :
    hasProp (JSValue.obj [("RemoteEntryModule", JSValue.null)]) "RemoteEntryModule" = true
    ∧ (RemoteLoaderServer.load
        (registerRemoteModule [] "app1" "Module"
          (Except.ok (JSValue.obj [("RemoteEntryModule", JSValue.null)])))
        "production" "app1" "Module").1.result
      = LoadResult.resolved (JSValue.obj [("RemoteEntryModule", JSValue.null)])
    ∧ getProp (JSValue.obj [("RemoteEntryModule", JSValue.null)]) "RemoteEntryModule"
      ≠ JSValue.obj [("RemoteEntryModule", JSValue.null)] :=
  ⟨rfl, rfl, fun h => JSValue.noConfusion h⟩

/-- C1 (corrected): for every registered pair whose factory promise fulfills
with a module object m, load resolves to the RemoteEntryModule property of m
when the item is "Module" and that property is truthy, and to m itself in
every other case. -/
theorem c1_amended_server_unwrap (self : RemoteLoaderServer)
    (nodeEnv remoteName remoteModule : String) (m : JSValue) (props : List (String × JSValue))
    (hreg : recordGet self (remoteName ++ remoteModule) = some (Except.ok m))
    (hm : m = JSValue.obj props) :
    (RemoteLoaderServer.load self nodeEnv remoteName remoteModule).1
      = ⟨LoadResult.resolved
          (if remoteModule = "Module" ∧ (getProp m "RemoteEntryModule").truthy = true
           then getProp m "RemoteEntryModule" else m), []⟩ := by
  subst hm
  by_cases hi : remoteModule = "Module"
  · subst hi
    by_cases ht : (getProp (JSValue.obj props) "RemoteEntryModule").truthy = true
    · simp [RemoteLoaderServer.load, hreg, thenRun, serverThen, propAccess, getProp, ht]
    · simp [RemoteLoaderServer.load, hreg, thenRun, serverThen, propAccess, getProp, ht]
  · simp [RemoteLoaderServer.load, hreg, thenRun, serverThen, propAccess, hi]

/-- C1 witness: the amended theorem applied at a registered pair whose module
object carries a truthy RemoteEntryModule property. -/
theorem c1_witness :
    (RemoteLoaderServer.load
        (registerRemoteModule [] "app1" "Module"
          (Except.ok (JSValue.obj [("RemoteEntryModule", JSValue.str "Entry")])))
        "production" "app1" "Module").1
      = ⟨LoadResult.resolved
          (if "Module" = "Module"
              ∧ (getProp (JSValue.obj [("RemoteEntryModule", JSValue.str "Entry")])
                  "RemoteEntryModule").truthy = true
           then getProp (JSValue.obj [("RemoteEntryModule", JSValue.str "Entry")])
                  "RemoteEntryModule"
           else JSValue.obj [("RemoteEntryModule", JSValue.str "Entry")]), []⟩ :=
  c1_amended_server_unwrap
    (registerRemoteModule [] "app1" "Module"
      (Except.ok (JSValue.obj [("RemoteEntryModule", JSValue.str "Entry")])))
    "production" "app1" "Module"
    (JSValue.obj [("RemoteEntryModule", JSValue.str "Entry")])
    [("RemoteEntryModule", JSValue.str "Entry")] rfl rfl

/-- C2 counterexample: the delegated call resolves to an object with no
RemoteEntryModule property and the item is "Module".  The claim says the
browser load then resolves to the raw value unchanged; the code resolves to
undefined (the absent property), which differs from the raw object. -/
theorem c2_counterexample :
    hasProp (JSValue.obj [("x", JSValue.num 1)]) "RemoteEntryModule" = false
    ∧ RemoteLoaderBrowser.load (fun _ _ => Except.ok (JSValue.obj [("x", JSValue.num 1)]))
        "app1" "Module"
      = LoadResult.resolved JSValue.undefined
    ∧ JSValue.undefined ≠ JSValue.obj [("x", JSValue.num 1)] :=
  ⟨rfl, rfl, fun h => JSValue.noConfusion h⟩

/-- C2 (corrected): when the delegated federation call fulfills with a module
object m, the browser load resolves to the RemoteEntryModule property of m
whenever the item is "Module" — the value of the property when present, and
undefined when absent, never the raw object — and to m unchanged for every
other item. -/
theorem c2_amended_browser_unwrap (loadRemoteModule : String → String → PromiseOutcome)
    (remoteName remoteModule : String) (props : List (String × JSValue))
    (hres : loadRemoteModule remoteName ("./" ++ remoteModule)
      = Except.ok (JSValue.obj props)) :
    RemoteLoaderBrowser.load loadRemoteModule remoteName remoteModule
      = LoadResult.resolved
          (if remoteModule = "Module"
           then getProp (JSValue.obj props) "RemoteEntryModule"
           else JSValue.obj props) := by
  by_cases hi : remoteModule = "Module"
  · subst hi
    simp only [String.reduceAppend] at hres
    simp [RemoteLoaderBrowser.load, thenRun, browserThen, propAccess, getProp, hres]
  · simp [RemoteLoaderBrowser.load, thenRun, browserThen, propAccess, hres, hi]

/-- C2 witness: the amended theorem applied at a delegated call resolving to
an object without the entry property, requested item "Module". -/
theorem c2_witness :
    RemoteLoaderBrowser.load (fun _ _ => Except.ok (JSValue.obj [("y", JSValue.num 2)]))
        "app2" "Module"
      = LoadResult.resolved
          (if "Module" = "Module"
           then getProp (JSValue.obj [("y", JSValue.num 2)]) "RemoteEntryModule"
           else JSValue.obj [("y", JSValue.num 2)]) :=
  c2_amended_browser_unwrap (fun _ _ => Except.ok (JSValue.obj [("y", JSValue.num 2)]))
    "app2" "Module" [("y", JSValue.num 2)] rfl

/-- C3 (confirmed): for every unregistered pair whose concatenated key is not
the development sentinel, the server load fails by throwing an error whose
message contains both the remote name and the item as substrings, in every
execution mode. -/
theorem c3_unregistered_error (self : RemoteLoaderServer)
    (nodeEnv remoteName remoteModule : String)
    (hreg : recordGet self (remoteName ++ remoteModule) = none)
    (hkey : remoteName ++ remoteModule ≠ "exampleAppModule") :
    (RemoteLoaderServer.load self nodeEnv remoteName remoteModule).1.result
      = LoadResult.thrown (notFoundMessage remoteName remoteModule)
    ∧ List.IsInfix remoteName.data (notFoundMessage remoteName remoteModule).data
    ∧ List.IsInfix remoteModule.data (notFoundMessage remoteName remoteModule).data := by
  refine ⟨by simp [RemoteLoaderServer.load, hreg, hkey], ?_, ?_⟩
  · exact ⟨"Remote module ".data,
      ("/" ++ remoteModule
        ++ " not found. Make sure to register it using registerRemoteModule.").data,
      by simp [notFoundMessage, String.data_append, List.append_assoc]⟩
  · exact ⟨("Remote module " ++ remoteName ++ "/").data,
      " not found. Make sure to register it using registerRemoteModule.".data,
      by simp [notFoundMessage, String.data_append, List.append_assoc]⟩

/-- C3 witness: the theorem applied at load of the pair (ghost, Module) on an
empty table with development mode off. -/
theorem c3_witness :
    (RemoteLoaderServer.load [] "production" "ghost" "Module").1.result
      = LoadResult.thrown (notFoundMessage "ghost" "Module")
    ∧ List.IsInfix "ghost".data (notFoundMessage "ghost" "Module").data
    ∧ List.IsInfix "Module".data (notFoundMessage "ghost" "Module").data :=
  c3_unregistered_error [] "production" "ghost" "Module" rfl (by decide)

/-- C4 counterexample: for the unregistered pair (ghost, Module) with
development mode off, the failure the server load surfaces is a synchronous
exception (the thrown Error), not a rejected promise — refuting the claim that
every failure is surfaced as a rejected deferred value and never by any other
mechanism. -/
theorem c4_counterexample :
    (RemoteLoaderServer.load [] "production" "ghost" "Module").1.result
      = LoadResult.thrown (notFoundMessage "ghost" "Module")
    ∧ ((RemoteLoaderServer.load [] "production" "ghost" "Module").1.result).isRejectedPromise
      = false :=
  ⟨rfl, rfl⟩

/-- C4 (corrected): failures of a registered factory promise propagate to the
caller unchanged as a rejected promise, with nothing caught or recovered
internally; the unregistered-remote error, however, is raised as a synchronous
throw rather than as a rejected promise. -/
theorem c4_amended_propagation (self : RemoteLoaderServer)
    (nodeEnv remoteName remoteModule : String) :
    (∀ e, recordGet self (remoteName ++ remoteModule) = some (Except.error e) →
      RemoteLoaderServer.load self nodeEnv remoteName remoteModule
        = (⟨LoadResult.rejected e, []⟩, self))
    ∧ (recordGet self (remoteName ++ remoteModule) = none →
        ¬(nodeEnv = "development" ∧ remoteName ++ remoteModule = "exampleAppModule") →
        RemoteLoaderServer.load self nodeEnv remoteName remoteModule
          = (⟨LoadResult.thrown (notFoundMessage remoteName remoteModule), []⟩, self)) := by
  constructor
  · intro e hreg
    simp [RemoteLoaderServer.load, hreg, thenRun]
  · intro hreg hdev
    simp [RemoteLoaderServer.load, hreg, hdev]

/-- C4 witness: the amended theorem applied at a registered factory rejecting
with the reason "boom", and at the unregistered pair (ghost, Module) with
development mode off. -/
theorem c4_witness :
    RemoteLoaderServer.load [("aX", Except.error (JSValue.str "boom"))] "production" "a" "X"
      = (⟨LoadResult.rejected (JSValue.str "boom"), []⟩,
          [("aX", Except.error (JSValue.str "boom"))])
    ∧ RemoteLoaderServer.load [] "production" "ghost" "Module"
      = (⟨LoadResult.thrown (notFoundMessage "ghost" "Module"), []⟩, []) :=
  ⟨(c4_amended_propagation [("aX", Except.error (JSValue.str "boom"))] "production" "a" "X").1
      (JSValue.str "boom") rfl,
    (c4_amended_propagation [] "production" "ghost" "Module").2 rfl (by decide)⟩

/-- C5 counterexample: the distinct pairs (ab, c) and (a, bc) share the
concatenated key "abc".  On an empty table, load (a, bc) throws; after
registering a factory under (ab, c), load (a, bc) succeeds through that
foreign factory — so registration under one pair does change the behaviour of
load at a different pair, refuting identification by exact pair match. -/
theorem c5_counterexample :
    (("ab", "c") : String × String) ≠ ("a", "bc")
    ∧ (RemoteLoaderServer.load [] "production" "a" "bc").1.result
      = LoadResult.thrown (notFoundMessage "a" "bc")
    ∧ (RemoteLoaderServer.load
        (registerRemoteModule [] "ab" "c" (Except.ok (JSValue.obj [])))
        "production" "a" "bc").1.result
      = LoadResult.resolved (JSValue.obj []) :=
  ⟨by decide, rfl, rfl⟩

/-- C5 (corrected): remote references are identified by their concatenated
key: registering a factory under one pair leaves the observable outcome of
load at another pair unchanged whenever the two concatenations differ (pairs
with equal concatenations, such as (ab, c) and (a, bc), collide). -/
theorem c5_amended_concat_frame (self : RemoteLoaderServer) (importFn : PromiseOutcome)
    (nodeEnv n₁ i₁ n₂ i₂ : String) (h : n₁ ++ i₁ ≠ n₂ ++ i₂) :
    (RemoteLoaderServer.load (registerRemoteModule self n₁ i₁ importFn) nodeEnv n₂ i₂).1
      = (RemoteLoaderServer.load self nodeEnv n₂ i₂).1 := by
  cases hg : recordGet self (n₂ ++ i₂) with
  | none =>
    simp only [RemoteLoaderServer.load, registerRemoteModule,
      recordGet_recordSet_ne self (n₁ ++ i₁) (n₂ ++ i₂) importFn h, hg]
    split_ifs <;> rfl
  | some f =>
    simp [RemoteLoaderServer.load, registerRemoteModule,
      recordGet_recordSet_ne self (n₁ ++ i₁) (n₂ ++ i₂) importFn h, hg]

/-- C5 witness: the amended theorem applied at two pairs with different
concatenated keys. -/
theorem c5_amended_concat_frame_witness :
    (RemoteLoaderServer.load
        (registerRemoteModule [] "x" "y" (Except.ok (JSValue.obj []))) "production" "n" "m").1
      = (RemoteLoaderServer.load [] "production" "n" "m").1 :=
  c5_amended_concat_frame [] (Except.ok (JSValue.obj [])) "production" "x" "y" "n" "m"
    (by decide)

/-- C6 (confirmed): registering the same pair twice is last-write-wins — after
the two registrations the loader behaves, on every subsequent load of that
pair (and in fact in toto, since record assignment overwrites in place),
exactly as if only the second registration had happened, so the first factory
is discarded and never invoked. -/
theorem c6_last_write_wins (self : RemoteLoaderServer) (nodeEnv remoteName remoteModule : String)
    (f₁ f₂ : PromiseOutcome) :
    RemoteLoaderServer.load
        (registerRemoteModule (registerRemoteModule self remoteName remoteModule f₁)
          remoteName remoteModule f₂) nodeEnv remoteName remoteModule
      = RemoteLoaderServer.load (registerRemoteModule self remoteName remoteModule f₂)
          nodeEnv remoteName remoteModule := by
  unfold registerRemoteModule
  rw [recordSet_recordSet_self]

/-- C7 counterexample: the concatenated key of the pair (example, App) is
"exampleApp", which is not the hard-coded sentinel "exampleAppModule"; in
development mode with nothing registered, load (example, App) therefore throws
the not-found error instead of resolving to an empty object, and emits no
warning. -/
theorem c7_counterexample :
    ("example" ++ "App" : String) ≠ "exampleAppModule"
    ∧ (RemoteLoaderServer.load [] "development" "example" "App").1
      = ⟨LoadResult.thrown (notFoundMessage "example" "App"), []⟩ :=
  ⟨by decide, rfl⟩

/-- C7 (corrected): in development mode, for every pair whose concatenated key
equals the hard-coded sentinel "exampleAppModule" (such as (exampleApp,
Module), but not (example, App)) and which has no registered factory, load
resolves to an empty object, emits the example warning, and does not fail. -/
theorem c7_amended_dev_fallback (self : RemoteLoaderServer) (remoteName remoteModule : String)
    (hreg : recordGet self (remoteName ++ remoteModule) = none)
    (hkey : remoteName ++ remoteModule = "exampleAppModule") :
    (RemoteLoaderServer.load self "development" remoteName remoteModule).1
      = ⟨LoadResult.resolved (JSValue.obj []), [exampleWarning]⟩ := by
  rw [hkey] at hreg
  simp [RemoteLoaderServer.load, hkey, hreg]

/-- C7 witness: the amended theorem applied at the pair (exampleApp, Module)
on an empty table. -/
theorem c7_amended_dev_fallback_witness :
    (RemoteLoaderServer.load [] "development" "exampleApp" "Module").1
      = ⟨LoadResult.resolved (JSValue.obj []), [exampleWarning]⟩ :=
  c7_amended_dev_fallback [] "exampleApp" "Module" rfl rfl

/-- C8 (confirmed): load never mutates the registration table — for every
table state, execution mode and pair of arguments, the post-call table equals
the pre-call table, on the success, development-fallback and error paths
alike. -/
theorem c8_table_unchanged (self : RemoteLoaderServer)
    (nodeEnv remoteName remoteModule : String) :
    (RemoteLoaderServer.load self nodeEnv remoteName remoteModule).2 = self := by
  cases hg : recordGet self (remoteName ++ remoteModule) with
  | none =>
    simp only [RemoteLoaderServer.load, hg]
    split_ifs <;> rfl
  | some f => simp [RemoteLoaderServer.load, hg]

/-- C9 (confirmed): for every injected loader implementation and remote name,
one invocation of the loadChildren thunk produced by the routing unit of
remoteLoader(name) performs exactly the single call load(name, "Module") on
the injected loader, and hands the promise that call returns back to the
router as the child routes. -/
theorem c9_route_factory_single_load (loader : String → String → LoadResult) (name : String) :
    (proxyLoadChildren loader name).2 = [(name, "Module")]
    ∧ (proxyLoadChildren loader name).2.length = 1
    ∧ (proxyLoadChildren loader name).1 = loader name "Module" :=
  ⟨rfl, rfl, rfl⟩

/-- C10 (confirmed): for every registered pair whose item is "Module" and
whose factory promise fulfills with a module object on which the
RemoteEntryModule property is present but falsy, the server load resolves to
the whole module object, not to the value of the property: the unwrap tests
truthiness, not presence. -/
theorem c10_falsy_entry_not_unwrapped (self : RemoteLoaderServer)
    (nodeEnv remoteName : String) (props : List (String × JSValue))
    (hreg : recordGet self (remoteName ++ "Module")
      = some (Except.ok (JSValue.obj props)))
    (hp : hasProp (JSValue.obj props) "RemoteEntryModule" = true)
    (ht : (getProp (JSValue.obj props) "RemoteEntryModule").truthy = false) :
    (RemoteLoaderServer.load self nodeEnv remoteName "Module").1.result
      = LoadResult.resolved (JSValue.obj props) := by
  simp only [getProp] at ht
  simp [RemoteLoaderServer.load, hreg, thenRun, serverThen, propAccess, getProp, ht]

/-- C10 witness: the theorem applied at a registered module object whose
RemoteEntryModule property is null. -/
theorem c10_falsy_entry_witness :
    (RemoteLoaderServer.load
        (registerRemoteModule [] "app1" "Module"
          (Except.ok (JSValue.obj [("RemoteEntryModule", JSValue.null)])))
        "production" "app1" "Module").1.result
      = LoadResult.resolved (JSValue.obj [("RemoteEntryModule", JSValue.null)]) :=
  c10_falsy_entry_not_unwrapped
    (registerRemoteModule [] "app1" "Module"
      (Except.ok (JSValue.obj [("RemoteEntryModule", JSValue.null)])))
    "production" "app1" [("RemoteEntryModule", JSValue.null)] rfl rfl rfl

end NgxMfRemoteLoader
